import Mathlib

/-!
# Verification of the OOI port agent core

A shallow embedding of the port-agent daemon's router and connection
state machine (`ooi_port_agent/router.py`, `ooi_port_agent/agents.py`,
`ooi_port_agent/statistics.py`), together with theorems settling the
frozen claims about it.

Connections are identified by natural numbers.  Python `set`s are
modelled as duplicate-free lists: `set.add` is insert-if-absent (at the
tail), `set.remove` removes the element when present and raises
`KeyError` otherwise.  Python `dict`s keyed by enumeration values are
modelled as total functions updated with `Function.update`.
-/

namespace OOIPortAgent

/-- Modelled from the spec: the closed set of concrete packet types
(`common.py` is not part of the sources at hand; the constructor names
are the ones used throughout `agents.py` and `router.py`, and per the
spec the wildcard `ALL` is not itself a concrete packet type). -/
inductive PacketType where
  | UNKNOWN
  | FROM_INSTRUMENT
  | FROM_DRIVER
  | PA_COMMAND
  | PA_STATUS
  | PA_FAULT
  | PA_CONFIG
  | PA_HEARTBEAT
  | PICKLED_FROM_INSTRUMENT
  | DIGI_CMD
  | DIGI_RSP
  deriving DecidableEq, Repr

/-- Modelled from the spec: `PacketType.values()` enumerates the
concrete packet types ("`ALL` expands to all concrete types"). -/
def PacketType.values : List PacketType :=
  [.UNKNOWN, .FROM_INSTRUMENT, .FROM_DRIVER, .PA_COMMAND, .PA_STATUS,
   .PA_FAULT, .PA_CONFIG, .PA_HEARTBEAT, .PICKLED_FROM_INSTRUMENT,
   .DIGI_CMD, .DIGI_RSP]

/-- The first argument of `Router.add_route`: either the wildcard `ALL`
or a concrete packet type. -/
inductive RoutePacketType where
  | ALL
  | concrete (t : PacketType)
  deriving DecidableEq, Repr

/-- Modelled from the spec: the endpoint-type enumeration
(glossary: instrument, client/driver, command, command-handler, logger,
datalogger, sniffer-raw, digi-command-channel; `INSTRUMENT_DATA` is the
second instrument link of the dual-link agent in `agents.py`). -/
inductive EndpointType where
  | INSTRUMENT
  | INSTRUMENT_DATA
  | CLIENT
  | COMMAND
  | COMMAND_HANDLER
  | LOGGER
  | DATALOGGER
  | RAW
  | DIGI
  deriving DecidableEq, Repr

/-- Modelled from the spec: `EndpointType.values()`. -/
def EndpointType.values : List EndpointType :=
  [.INSTRUMENT, .INSTRUMENT_DATA, .CLIENT, .COMMAND, .COMMAND_HANDLER,
   .LOGGER, .DATALOGGER, .RAW, .DIGI]

/-- The output formats of `common.Format` (spec glossary:
RAW | PACKET | ASCII). -/
inductive Format where
  | RAW
  | PACKET
  | ASCII
  deriving DecidableEq, Repr

/-- The per-endpoint statistics counters of `common.RouterStat`, as
used in `router.py`. -/
inductive RouterStat where
  | ADD_ROUTE
  | ADD_CLIENT
  | DEL_CLIENT
  | PACKET_IN
  | BYTES_IN
  | PACKET_OUT
  | BYTES_OUT
  deriving DecidableEq, Repr

/-- All statistics counters (used to model truthiness of a `Counter`:
entries are only ever created by `+= 1`, so a counter dict is non-empty
iff some stat is non-zero). -/
def RouterStat.values : List RouterStat :=
  [.ADD_ROUTE, .ADD_CLIENT, .DEL_CLIENT, .PACKET_IN, .BYTES_IN,
   .PACKET_OUT, .BYTES_OUT]

/-- A connection object, identified by a number. -/
abbrev Conn := Nat

/-- Python `set.add` on the duplicate-free-list model of a set:
insert-if-absent. -/
def setAdd (xs : List Conn) (a : Conn) : List Conn :=
  if a ∈ xs then xs else xs ++ [a]

/-- Modelled from the spec: the protocol-defined maximum payload size
(the spec bounds `length` by a maximum but fixes no value; any positive
bound gives the same chunking behaviour for the payloads at issue). -/
def MAX_PAYLOAD : Nat := 65535

/-- Modelled from the spec: the fixed serialized header size
(sync marker + length + checksum + type code + 64-bit timestamp). -/
def HEADER_SIZE : Nat := 16

/-- Split a payload into chunks of at most `MAX_PAYLOAD` characters;
the fuel argument (instantiated with the list length) keeps the
recursion structural.  An empty payload yields one empty chunk, so
`create` always returns one-or-more packets as the spec requires. -/
def chunksAux : Nat → List Char → List (List Char)
  | 0, xs => [xs]
  | fuel + 1, xs =>
      if xs.length ≤ MAX_PAYLOAD then [xs]
      else xs.take MAX_PAYLOAD :: chunksAux fuel (xs.drop MAX_PAYLOAD)

/-- Deterministic chunking of a payload into maximal frames. -/
def chunks (xs : List Char) : List (List Char) := chunksAux xs.length xs

/-- Modelled from the spec: a `Packet` — typed header plus opaque
payload (`packet.py` is not part of the sources at hand).  The
timestamp and checksum play no role in the claims and are elided. -/
structure Packet where
  payload : String
  ptype : PacketType
  deriving DecidableEq, Repr

/-- `header.packet_size`: total serialized size, header plus payload. -/
def Packet.packet_size (p : Packet) : Nat := HEADER_SIZE + p.payload.length

/-- Modelled from the spec: `Packet.create(payload, type)` returns
one-or-more packets, chunking payloads that exceed the maximum frame
size. -/
def Packet.create (payload : String) (t : PacketType) : List Packet :=
  (chunks payload.data).map fun c => { payload := String.mk c, ptype := t }

/-- The router state (`Router.__init__`): a route table keyed by packet
type, a client registry keyed by endpoint type, per-endpoint statistics
counters, and the start-of-interval timestamp used by `_log_stats`.
(The unused `producers` set of `__init__` is omitted.) -/
structure Router where
  routes : PacketType → List (EndpointType × Format)
  clients : EndpointType → List Conn
  statistics : EndpointType × RouterStat → Nat
  stats_time : Option Nat

/-- `self.statistics[endpoint_type][stat] += n`. -/
def Router.incStat (r : Router) (e : EndpointType) (st : RouterStat) (n : Nat) :
    Router :=
  { r with
    statistics :=
      Function.update r.statistics (e, st) (r.statistics (e, st) + n) }

/-- The route-table update performed by `add_route` for the wildcard
`ALL`: `for packet_type in PacketType.values(): self.routes[packet_type].add((endpoint_type, data_format))`. -/
def addRouteAll (routes : PacketType → List (EndpointType × Format))
    (e : EndpointType) (f : Format) : PacketType → List (EndpointType × Format) :=
  PacketType.values.foldl
    (fun acc t =>
      Function.update acc t
        (if (e, f) ∈ acc t then acc t else acc t ++ [(e, f)]))
    routes

/-- `Router.add_route(packet_type, endpoint_type, data_format)`:
bump the ADD_ROUTE statistic, then insert the `(endpoint_type, format)`
pair into the route set of the given type, or of every concrete type
when the wildcard `ALL` is given. -/
def Router.add_route (r : Router) (pt : RoutePacketType) (e : EndpointType)
    (f : Format) : Router :=
  let r := r.incStat e .ADD_ROUTE 1
  match pt with
  | .ALL => { r with routes := addRouteAll r.routes e f }
  | .concrete t =>
      { r with
        routes :=
          Function.update r.routes t
            (if (e, f) ∈ r.routes t then r.routes t else r.routes t ++ [(e, f)]) }

/-- `Router.register(endpoint_type, source)`: bump the ADD_CLIENT
statistic and add the source to the endpoint type's client set. -/
def Router.register (r : Router) (e : EndpointType) (c : Conn) : Router :=
  let r := r.incStat e .ADD_CLIENT 1
  { r with clients := Function.update r.clients e (setAdd (r.clients e) c) }

/-- `Router.deregister(endpoint_type, source)`: bump the DEL_CLIENT
statistic, then `self.clients[endpoint_type].remove(source)` — Python's
`set.remove` raises `KeyError` when the element is absent.  The boolean
records whether a `KeyError` propagated out of the call. -/
def Router.deregister (r : Router) (e : EndpointType) (c : Conn) :
    Router × Bool :=
  let r := r.incStat e .DEL_CLIENT 1
  if c ∈ r.clients e then
    ({ r with clients := Function.update r.clients e ((r.clients e).erase c) },
     false)
  else
    (r, true)

/-- Result of a `got_data` dispatch: the updated router (statistics),
the writes that were actually performed (connection and the format it
was written in), and — when some connection's `write` raised — the
connection whose write failed (the exception propagates out of
`got_data`, aborting the rest of the dispatch). -/
structure DispatchResult where
  router : Router
  writes : List (Conn × Format)
  failed : Option Conn

/-- The inner client loop of `Router.got_data` (router.py lines 90-96):
for each client of the endpoint type, bump PACKET_OUT/BYTES_OUT, then
`client.write(...)`.  `fails c = true` models a write that raises; the
statistics for the failing client have already been bumped when the
exception aborts the loop. -/
def serveClients (fails : Conn → Bool) (e : EndpointType) (sz : Nat)
    (f : Format) : List Conn → Router → Router × List (Conn × Format) × Option Conn
  | [], r => (r, [], none)
  | c :: cs, r =>
      let r := (r.incStat e .PACKET_OUT 1).incStat e .BYTES_OUT sz
      if fails c then (r, [], some c)
      else
        let (r', ws, err) := serveClients fails e sz f cs r
        (r', (c, f) :: ws, err)

/-- The route-entry loop of `Router.got_data` (lines 87-96): for each
`(endpoint_type, data_format)` entry routed for the packet's type, bump
PACKET_IN/BYTES_IN and serve every client of that endpoint type. -/
def serveRoutes (fails : Conn → Bool) (sz : Nat) :
    List (EndpointType × Format) → Router → Router × List (Conn × Format) × Option Conn
  | [], r => (r, [], none)
  | (e, f) :: rest, r =>
      let r := (r.incStat e .PACKET_IN 1).incStat e .BYTES_IN sz
      let (r1, ws, err) := serveClients fails e sz f (r.clients e) r
      match err with
      | some c => (r1, ws, some c)
      | none =>
          let (r2, ws2, err2) := serveRoutes fails sz rest r1
          (r2, ws ++ ws2, err2)

/-- `Router.got_data(packets)`: route each packet as specified in the
routing table (`self.routes.get(packet.header.packet_type, [])`); an
uncaught write exception aborts the whole call. -/
def Router.got_data (r : Router) (fails : Conn → Bool) :
    List Packet → DispatchResult
  | [] => ⟨r, [], none⟩
  | p :: ps =>
      let (r1, ws, err) := serveRoutes fails p.packet_size (r.routes p.ptype) r
      match err with
      | some c => ⟨r1, ws, some c⟩
      | none =>
          let res := r1.got_data fails ps
          ⟨res.router, ws ++ res.writes, res.failed⟩

/-- The write-never-fails instantiation (Twisted transports do not
raise synchronously from `write`). -/
def noFail : Conn → Bool := fun _ => false

/-- The JSON statistics blob assembled by `Router._log_stats` and
passed to `_publish_stats` (the dict literal at router.py lines
132-140); `num_clients` mirrors the comprehension
`{k: len(self.clients[k]) for k in self.clients}`. -/
structure StatsBlob where
  bytes_in : Nat
  bytes_out : Nat
  num_clients : List (EndpointType × Nat)
  elapsed : Nat
  end_time : Nat
  reference_designator : String
  adds : Nat
  deriving DecidableEq, Repr

/-- `Router._log_stats`, called by the `LoopingCall` once per
statistics interval: record the interval end time; if a previous
interval end exists and the CLIENT endpoint has a non-empty statistics
counter (`Counter` entries are only created positive, so non-empty is
some-stat-non-zero), assemble the blob and publish it; always clear
the statistics at the end.  Returns the published blob, if any. -/
def Router.log_stats (r : Router) (refdes : String) (now : Nat) :
    Router × Option StatsBlob :=
  let start_time := r.stats_time
  let r := { r with stats_time := some now }
  let blob :=
    match start_time with
    | none => none
    | some t =>
        if RouterStat.values.any (fun st => r.statistics (.CLIENT, st) ≠ 0) then
          some
            { bytes_in := r.statistics (.CLIENT, .BYTES_IN)
              bytes_out := r.statistics (.CLIENT, .BYTES_OUT)
              num_clients := EndpointType.values.map fun k => (k, (r.clients k).length)
              elapsed := now - t
              end_time := now
              reference_designator := refdes
              adds := r.statistics (.CLIENT, .ADD_CLIENT) }
        else none
  ({ r with statistics := fun _ => 0 }, blob)

/-- `StatisticsPublisher.publish(message)` (statistics.py): when no
channel to the message queue is open the message is dropped with a log
line — no exception is raised; otherwise it is published on the
channel.  Returns whether the message was delivered. -/
def StatisticsPublisher.publish (channel : Option Nat) (_message : String) :
    Except Unit Bool :=
  match channel with
  | none => .ok false
  | some _ => .ok true

/-!
## The PortAgent connection state machine

`PortAgent.instrument_connected` / `instrument_disconnected` /
`notify_disconnected` (agents.py lines 232-270), together with the
Twisted `DelayedCall` returned by `reactor.callLater`: a delayed call
is pending until it fires or is cancelled; `cancel()` raises
`AlreadyCancelled` / `AlreadyCalled` unless the call is pending.
-/

/-- The state of the `DelayedCall` object referenced by
`self.disconnect_notification_id`. -/
inductive DelayedCall where
  | pending
  | cancelled
  | called
  deriving DecidableEq, Repr

/-- The agent state the connectivity machine reads and writes:
the live instrument-connection set, the configured target count, the
reference to the disconnect-notification `DelayedCall` (never reset to
`none` once set), and the PA_STATUS packets emitted so far through
`self.router.got_data(Packet.create(...))`. -/
structure AgentState where
  connections : List Conn
  num_connections : Nat
  disconnect_notification_id : Option DelayedCall
  emitted : List Packet
  deriving DecidableEq, Repr

/-- The events driving the connectivity machine: an instrument socket
connecting, one disconnecting, and the pending forgiveness timer
firing (the reactor fires only pending delayed calls). -/
inductive AgentEvent where
  | connect (c : Conn)
  | disconnect (c : Conn)
  | timerFire
  deriving DecidableEq, Repr

/-- Exceptions the machine can raise: `KeyError` from
`set.remove` on an absent connection, `AlreadyCancelled` /
`AlreadyCalled` from `DelayedCall.cancel()` on a spent call, and
`notPending` marking the impossible scheduler event of a non-pending
timer firing. -/
inductive AgentErr where
  | keyError
  | alreadyCancelled
  | alreadyCalled
  | notPending
  deriving DecidableEq, Repr

/-- One step of the connectivity machine.

`connect c` is `instrument_connected`: add to the live set; if the live
count now equals the target, cancel any `disconnect_notification_id`
(raising if it is no longer pending — the code never resets the field
to `None`) and emit a CONNECTED status packet.

`disconnect c` is `instrument_disconnected`: remove from the live set
(`KeyError` if absent); if `disconnect_notification_id is None`, start
the forgiveness timer.

`timerFire` is the reactor invoking `notify_disconnected`: the call
becomes `called` (the field keeps referencing it) and a DISCONNECTED
status packet is emitted. -/
def AgentState.step (s : AgentState) : AgentEvent → Except AgentErr AgentState
  | .connect c =>
      let s := { s with connections := setAdd s.connections c }
      if s.connections.length = s.num_connections then
        match s.disconnect_notification_id with
        | some .pending =>
            .ok { s with
                  disconnect_notification_id := some .cancelled
                  emitted := s.emitted ++ Packet.create "CONNECTED" .PA_STATUS }
        | some .cancelled => .error .alreadyCancelled
        | some .called => .error .alreadyCalled
        | none =>
            .ok { s with
                  emitted := s.emitted ++ Packet.create "CONNECTED" .PA_STATUS }
      else .ok s
  | .disconnect c =>
      if c ∈ s.connections then
        let s := { s with connections := s.connections.erase c }
        match s.disconnect_notification_id with
        | none => .ok { s with disconnect_notification_id := some .pending }
        | some _ => .ok s
      else .error .keyError
  | .timerFire =>
      match s.disconnect_notification_id with
      | some .pending =>
          .ok { s with
                disconnect_notification_id := some .called
                emitted := s.emitted ++ Packet.create "DISCONNECTED" .PA_STATUS }
      | _ => .error .notPending

/-- Run a sequence of events from a state; an exception aborts the
run. -/
def AgentState.run (s : AgentState) : List AgentEvent → Except AgentErr AgentState
  | [] => .ok s
  | e :: es =>
      match s.step e with
      | .ok s' => s'.run es
      | .error err => .error err

/-- `PortAgent.get_state`: CONNECTED when the live connection count
equals the target, DISCONNECTED otherwise. -/
def PortAgent.get_state (s : AgentState) : List Packet :=
  if s.connections.length = s.num_connections then
    Packet.create "CONNECTED" .PA_STATUS
  else
    Packet.create "DISCONNECTED" .PA_STATUS

/-- `PortAgent.get_config`: the agent configuration serialized to JSON,
in a PA_CONFIG packet. -/
def PortAgent.get_config (configJson : String) : List Packet :=
  Packet.create configJson .PA_CONFIG

/-- `PortAgent.get_version`: the package version string, in a
PA_CONFIG packet (the same packet type `get_config` uses). -/
def PortAgent.get_version (version : String) : List Packet :=
  Packet.create version .PA_CONFIG

/-!
## Helper lemmas
-/

/-- The synthetic CONNECTED status packet. -/
def connPacket : Packet := { payload := "CONNECTED", ptype := .PA_STATUS }

/-- The synthetic DISCONNECTED status packet. -/
def discPacket : Packet := { payload := "DISCONNECTED", ptype := .PA_STATUS }

lemma create_connected : Packet.create "CONNECTED" .PA_STATUS = [connPacket] := rfl

lemma create_disconnected :
    Packet.create "DISCONNECTED" .PA_STATUS = [discPacket] := rfl

lemma incStat_clients (r : Router) (e : EndpointType) (st : RouterStat) (n : Nat) :
    (r.incStat e st n).clients = r.clients := rfl

lemma incStat_routes (r : Router) (e : EndpointType) (st : RouterStat) (n : Nat) :
    (r.incStat e st n).routes = r.routes := rfl

lemma incStat_stat_self (r : Router) (e : EndpointType) (st : RouterStat) (n : Nat) :
    (r.incStat e st n).statistics (e, st) = r.statistics (e, st) + n :=
  Function.update_same _ _ _

lemma incStat_stat_other (r : Router) (e : EndpointType) (st : RouterStat) (n : Nat)
    (e' : EndpointType) (st' : RouterStat) (h : (e', st') ≠ (e, st)) :
    (r.incStat e st n).statistics (e', st') = r.statistics (e', st') :=
  Function.update_noteq h _ _

lemma setAdd_of_not_mem {xs : List Conn} {a : Conn} (h : a ∉ xs) :
    setAdd xs a = xs ++ [a] := by
  simp [setAdd, h]

lemma mem_setAdd (xs : List Conn) (a : Conn) : a ∈ setAdd xs a := by
  unfold setAdd
  by_cases h : a ∈ xs
  · rw [if_pos h]; exact h
  · rw [if_neg h]; exact List.mem_append_right xs (List.mem_singleton.mpr rfl)

lemma setAdd_idem (xs : List Conn) (a : Conn) :
    setAdd (setAdd xs a) a = setAdd xs a := by
  show (if a ∈ setAdd xs a then setAdd xs a else setAdd xs a ++ [a]) = setAdd xs a
  rw [if_pos (mem_setAdd xs a)]

lemma create_ptype (s : String) (t : PacketType) :
    ∀ p ∈ Packet.create s t, p.ptype = t := by
  intro p hp
  simp only [Packet.create, List.mem_map] at hp
  obtain ⟨c, -, rfl⟩ := hp
  rfl

/-!
## C2 — disconnect-forgiveness timer invariant (code bug)

The code never resets `disconnect_notification_id` to `None`, neither
when `instrument_connected` cancels the timer nor when it fires.  After
a cancellation, `instrument_disconnected` finds the field non-`None`
and starts no new forgiveness timer, and a later
`instrument_connected` reaching the target calls `cancel()` on the
spent `DelayedCall`, which raises `AlreadyCancelled`. -/

/-- C2: with target count 1, the event sequence connect a / disconnect
a / connect a (cancels the timer) / disconnect a leaves the agent
disconnected with `disconnect_notification_id` still referencing the
*cancelled* delayed call — no new forgiveness timer is pending and no
DISCONNECTED notification can ever fire — and one further reconnect
raises `AlreadyCancelled` from `DelayedCall.cancel()`. -/
theorem C2_timer_not_restarted_after_cancel :
    AgentState.run ⟨[], 1, none, []⟩
        [.connect 0, .disconnect 0, .connect 0, .disconnect 0]
      = .ok ⟨[], 1, some .cancelled, [connPacket, connPacket]⟩ ∧
    AgentState.run ⟨[], 1, none, []⟩
        [.connect 0, .disconnect 0, .connect 0, .disconnect 0, .connect 0]
      = .error .alreadyCancelled :=
  ⟨rfl, rfl⟩

/-!
## C4 — deregistration of an absent connection (corrected)

`Router.deregister` uses Python's `set.remove`, which raises `KeyError`
when the connection is absent; the exception propagates to the caller.
The client registry is indeed left unchanged (the DEL_CLIENT statistic
is still bumped first). -/

/-- A router with no registered clients, for the C4 counterexample. -/
def emptyRouter : Router :=
  { routes := fun _ => [], clients := fun _ => [], statistics := fun _ => 0,
    stats_time := none }

/-- C4 counterexample: deregistering a connection that is not in the
CLIENT set raises a `KeyError` that propagates out of `deregister`
(the boolean records the uncaught exception), refuting "does not
propagate an uncaught exception". -/
theorem C4_counterexample :
    (0 : Conn) ∉ emptyRouter.clients .CLIENT ∧
    (emptyRouter.deregister .CLIENT 0).2 = true :=
  ⟨by simp [emptyRouter], rfl⟩

/-- C4 (amended): calling `Router.deregister` with a connection absent
from that endpoint type's client set leaves the client registry
unchanged but raises an uncaught `KeyError` (while still incrementing
the DEL_CLIENT statistic); disconnect handlers do not get a no-op. -/
theorem C4_deregister_absent (r : Router) (e : EndpointType) (c : Conn)
    (h : c ∉ r.clients e) :
    (r.deregister e c).1.clients = r.clients ∧
    (r.deregister e c).2 = true ∧
    (r.deregister e c).1.statistics (e, .DEL_CLIENT)
      = r.statistics (e, .DEL_CLIENT) + 1 := by
  refine ⟨?_, ?_, ?_⟩ <;>
    simp [Router.deregister, h, incStat_clients, incStat_stat_self]

/-- C4 witness: the amended theorem at the empty router. -/
theorem C4_deregister_absent_witness :
    (emptyRouter.deregister .CLIENT 0).1.clients = emptyRouter.clients ∧
    (emptyRouter.deregister .CLIENT 0).2 = true ∧
    (emptyRouter.deregister .CLIENT 0).1.statistics (.CLIENT, .DEL_CLIENT)
      = emptyRouter.statistics (.CLIENT, .DEL_CLIENT) + 1 :=
  C4_deregister_absent emptyRouter .CLIENT 0 (by simp [emptyRouter])

/-!
## C5 — `get_state` response
-/

/-- C5: `get_state` answers a single PA_STATUS packet with payload
DISCONNECTED when the live instrument-connection count is below the
target, and CONNECTED when it equals the target. -/
theorem C5_get_state (s : AgentState) :
    (s.connections.length < s.num_connections →
      PortAgent.get_state s = [discPacket]) ∧
    (s.connections.length = s.num_connections →
      PortAgent.get_state s = [connPacket]) := by
  constructor
  · intro h
    simp [PortAgent.get_state, Nat.ne_of_lt h, create_disconnected]
  · intro h
    simp [PortAgent.get_state, h, create_connected]

/-- C5 witness: 0 of 1 target connections live yields DISCONNECTED;
1 of 1 yields CONNECTED. -/
theorem C5_get_state_witness :
    PortAgent.get_state ⟨[], 1, none, []⟩ = [discPacket] ∧
    PortAgent.get_state ⟨[0], 1, none, []⟩ = [connPacket] :=
  ⟨(C5_get_state ⟨[], 1, none, []⟩).1 (by decide),
   (C5_get_state ⟨[0], 1, none, []⟩).2 (by decide)⟩

/-!
## C10 — `get_version` answers with packet type PA_CONFIG
-/

/-- C10: every packet returned by the `get_version` handler has packet
type PA_CONFIG — the very type `get_config` responses use — so the two
responses are indistinguishable by packet type. -/
theorem C10_get_version_type (version configJson : String) :
    ((PortAgent.get_version version).all
      fun p => p.ptype == PacketType.PA_CONFIG) = true ∧
    ((PortAgent.get_config configJson).all
      fun p => p.ptype == PacketType.PA_CONFIG) = true := by
  constructor <;>
  · rw [List.all_eq_true]
    intro p hp
    simpa using create_ptype _ _ p hp

/-!
## C6 — `add_route` semantics
-/

/-- Set-insertion of a route pair, as performed by
`self.routes[packet_type].add((endpoint_type, data_format))`. -/
def routeInsert (xs : List (EndpointType × Format)) (ef : EndpointType × Format) :
    List (EndpointType × Format) :=
  if ef ∈ xs then xs else xs ++ [ef]

lemma mem_routeInsert (xs : List (EndpointType × Format))
    (ef : EndpointType × Format) : ef ∈ routeInsert xs ef := by
  unfold routeInsert
  by_cases h : ef ∈ xs
  · rw [if_pos h]; exact h
  · rw [if_neg h]; exact List.mem_append_right xs (List.mem_singleton.mpr rfl)

lemma mem_of_mem_routeInsert {xs : List (EndpointType × Format)}
    {ef x : EndpointType × Format} (h : x ∈ routeInsert xs ef) :
    x ∈ xs ∨ x = ef := by
  unfold routeInsert at h
  by_cases hm : ef ∈ xs
  · rw [if_pos hm] at h; exact Or.inl h
  · rw [if_neg hm] at h
    rcases List.mem_append.mp h with h' | h'
    · exact Or.inl h'
    · exact Or.inr (List.mem_singleton.mp h')

lemma routeInsert_idem (xs : List (EndpointType × Format))
    (ef : EndpointType × Format) :
    routeInsert (routeInsert xs ef) ef = routeInsert xs ef := by
  show (if ef ∈ routeInsert xs ef then routeInsert xs ef
        else routeInsert xs ef ++ [ef]) = routeInsert xs ef
  rw [if_pos (mem_routeInsert xs ef)]

lemma addRouteAll_eq_foldl (routes : PacketType → List (EndpointType × Format))
    (e : EndpointType) (f : Format) :
    addRouteAll routes e f
      = PacketType.values.foldl
          (fun acc t => Function.update acc t (routeInsert (acc t) (e, f)))
          routes := rfl

lemma foldl_update_routeInsert (ef : EndpointType × Format) :
    ∀ (ts : List PacketType), ts.Nodup →
      ∀ (routes : PacketType → List (EndpointType × Format)) (t : PacketType),
        (ts.foldl (fun acc u => Function.update acc u (routeInsert (acc u) ef))
            routes) t
          = if t ∈ ts then routeInsert (routes t) ef else routes t := by
  intro ts
  induction ts with
  | nil => intro _ routes t; simp
  | cons u us ih =>
      intro hnd routes t
      obtain ⟨hu, hus⟩ := List.nodup_cons.mp hnd
      rw [List.foldl_cons, ih hus]
      by_cases ht : t = u
      · subst ht
        rw [if_neg hu, if_pos (List.mem_cons_self t us),
            Function.update_same]
      · rw [Function.update_noteq ht]
        by_cases hts : t ∈ us
        · rw [if_pos hts, if_pos (List.mem_cons_of_mem u hts)]
        · rw [if_neg hts, if_neg (by simp [ht, hts])]

lemma packetType_values_nodup : PacketType.values.Nodup := by decide

lemma mem_packetType_values (t : PacketType) : t ∈ PacketType.values := by
  cases t <;> decide

/-- `addRouteAll` pointwise: every concrete packet type receives the
set-inserted pair. -/
lemma addRouteAll_apply (routes : PacketType → List (EndpointType × Format))
    (e : EndpointType) (f : Format) (t : PacketType) :
    addRouteAll routes e f t = routeInsert (routes t) (e, f) := by
  rw [addRouteAll_eq_foldl,
    foldl_update_routeInsert (e, f) PacketType.values packetType_values_nodup,
    if_pos (mem_packetType_values t)]

lemma add_route_all_routes (r : Router) (e : EndpointType) (f : Format)
    (t : PacketType) :
    (r.add_route .ALL e f).routes t = routeInsert (r.routes t) (e, f) := by
  show addRouteAll (r.incStat e .ADD_ROUTE 1).routes e f t = _
  rw [addRouteAll_apply, incStat_routes]

lemma add_route_concrete_routes (r : Router) (e : EndpointType) (f : Format)
    (t t' : PacketType) :
    (r.add_route (.concrete t') e f).routes t
      = if t = t' then routeInsert (r.routes t) (e, f) else r.routes t := by
  show Function.update (r.incStat e .ADD_ROUTE 1).routes t'
        (routeInsert ((r.incStat e .ADD_ROUTE 1).routes t') (e, f)) t = _
  rw [incStat_routes]
  by_cases ht : t = t'
  · subst ht; rw [if_pos rfl, Function.update_same]
  · rw [if_neg ht, Function.update_noteq ht]

/-- C6: `add_route(ALL, E, F)` immediately inserts `(E, F)` into the
route set of every concrete packet type; the only entries it creates
are `(E, F)` itself (each route set grows by at most that pair); and
`add_route` is idempotent set-insertion — a second identical call
(wildcard or concrete) leaves the route table exactly as after the
first. -/
theorem C6_add_route (r : Router) (e : EndpointType) (f : Format) :
    (∀ t : PacketType, (e, f) ∈ (r.add_route .ALL e f).routes t) ∧
    (∀ (t : PacketType) (x : EndpointType × Format),
        x ∈ (r.add_route .ALL e f).routes t → x ∈ r.routes t ∨ x = (e, f)) ∧
    (∀ pt : RoutePacketType,
        ((r.add_route pt e f).add_route pt e f).routes
          = (r.add_route pt e f).routes) := by
  refine ⟨?_, ?_, ?_⟩
  · intro t
    rw [add_route_all_routes]
    exact mem_routeInsert _ _
  · intro t x hx
    rw [add_route_all_routes] at hx
    exact mem_of_mem_routeInsert hx
  · intro pt
    funext t
    match pt with
    | .ALL =>
        rw [add_route_all_routes, add_route_all_routes, routeInsert_idem]
    | .concrete t' =>
        rw [add_route_concrete_routes, add_route_concrete_routes]
        by_cases ht : t = t'
        · rw [if_pos ht, if_pos ht, routeInsert_idem]
        · rw [if_neg ht, if_neg ht]

/-- C6 witness: the membership implication of `C6_add_route` at the
empty router, where the only entry of the FROM_INSTRUMENT route set
after `add_route(ALL, CLIENT, PACKET)` is `(CLIENT, PACKET)` itself. -/
theorem C6_add_route_witness :
    ((.CLIENT, .PACKET) : EndpointType × Format) ∈ emptyRouter.routes .FROM_INSTRUMENT
      ∨ ((.CLIENT, .PACKET) : EndpointType × Format) = (.CLIENT, .PACKET) :=
  (C6_add_route emptyRouter .CLIENT .PACKET).2.1 .FROM_INSTRUMENT (.CLIENT, .PACKET)
    ((C6_add_route emptyRouter .CLIENT .PACKET).1 .FROM_INSTRUMENT)

/-!
## C3 — per-connection write failures during routing

`Router.got_data` calls `client.write(...)` inside the client loop with
no try/except: an exception raised by one connection's write aborts the
rest of the dispatch, so later connections do not receive the packet.
-/

lemma serveClients_spec (fails : Conn → Bool) (e : EndpointType) (sz : Nat)
    (f : Format) :
    ∀ (cs : List Conn) (r : Router),
      (serveClients fails e sz f cs r).2.1
          = (cs.takeWhile fun c => !fails c).map (fun c => (c, f)) ∧
      (serveClients fails e sz f cs r).2.2 = cs.find? fails := by
  intro cs
  induction cs with
  | nil => intro r; exact ⟨rfl, rfl⟩
  | cons c cs ih =>
      intro r
      by_cases hc : fails c = true
      · constructor <;>
          simp [serveClients, hc, List.takeWhile_cons, List.find?_cons]
      · rw [Bool.not_eq_true] at hc
        have h1 := (ih ((r.incStat e .PACKET_OUT 1).incStat e .BYTES_OUT sz)).1
        have h2 := (ih ((r.incStat e .PACKET_OUT 1).incStat e .BYTES_OUT sz)).2
        constructor <;>
          simp [serveClients, hc, List.takeWhile_cons, List.find?_cons, h1, h2]

/-- The route-entry loop on a single route entry: writes and failure
are those of the client loop for that entry. -/
lemma serveRoutes_singleton (fails : Conn → Bool) (sz : Nat) (E : EndpointType)
    (F : Format) (r : Router) :
    (serveRoutes fails sz [(E, F)] r).2.1
        = ((r.clients E).takeWhile fun c => !fails c).map (fun c => (c, F)) ∧
    (serveRoutes fails sz [(E, F)] r).2.2 = (r.clients E).find? fails := by
  obtain ⟨hw, hf⟩ := serveClients_spec fails E sz F (r.clients E)
      ((r.incStat E .PACKET_IN 1).incStat E .BYTES_IN sz)
  rcases hsc : serveClients fails E sz F (r.clients E)
      ((r.incStat E .PACKET_IN 1).incStat E .BYTES_IN sz) with ⟨r1, ws, err⟩
  rw [hsc] at hw hf
  simp only [serveRoutes, incStat_clients]
  rw [hsc]
  cases err <;> simp_all [serveRoutes]

/-- C3 (amended): delivery of a packet dispatched by `got_data` under a
single route entry reaches exactly the longest failure-free prefix of
the endpoint type's client list: the first connection whose write
raises aborts the dispatch (the exception propagates out of
`got_data`), so every connection after it — even one whose own write
would have succeeded — does not receive the packet. -/
theorem C3_write_failure_aborts_dispatch (r : Router) (p : Packet)
    (E : EndpointType) (F : Format) (fails : Conn → Bool)
    (hroute : r.routes p.ptype = [(E, F)]) :
    (r.got_data fails [p]).writes
        = ((r.clients E).takeWhile fun c => !fails c).map (fun c => (c, F)) ∧
    (r.got_data fails [p]).failed = (r.clients E).find? fails := by
  obtain ⟨hw, hf⟩ := serveRoutes_singleton fails p.packet_size E F r
  rcases hsr : serveRoutes fails p.packet_size [(E, F)] r with ⟨r1, ws, err⟩
  rw [hsr] at hw hf
  simp only [Router.got_data, hroute]
  rw [hsr]
  cases err <;> simp_all [Router.got_data]

/-- The concrete router for the C3 counterexample: packets from the
instrument are routed raw to the CLIENT endpoint type, which has two
live connections, 0 and 1. -/
def routerC3 : Router :=
  { routes := fun t => if t = .FROM_INSTRUMENT then [(.CLIENT, .RAW)] else []
    clients := fun e => if e = .CLIENT then [0, 1] else []
    statistics := fun _ => 0
    stats_time := none }

/-- A one-byte instrument packet for the C3 counterexample. -/
def packetC3 : Packet := { payload := "x", ptype := .FROM_INSTRUMENT }

/-- Connection 0's write raises; connection 1's write would succeed. -/
def failsC3 : Conn → Bool := fun c => c == 0

/-- C3 counterexample: both connections 0 and 1 are subscribed to the
packet's route, connection 1's write does not fail, yet the write
failure raised by connection 0 aborts the dispatch: no write at all is
performed (in particular none to connection 1) and the exception
propagates out of `got_data` — refuting per-connection write-failure
isolation. -/
theorem C3_counterexample :
    routerC3.routes packetC3.ptype = [(.CLIENT, .RAW)] ∧
    routerC3.clients .CLIENT = [0, 1] ∧
    failsC3 1 = false ∧
    (routerC3.got_data failsC3 [packetC3]).writes = [] ∧
    (routerC3.got_data failsC3 [packetC3]).failed = some 0 :=
  ⟨rfl, rfl, rfl, rfl, rfl⟩

/-- C3 witness: the amended theorem at the counterexample router. -/
theorem C3_write_failure_aborts_dispatch_witness :
    (routerC3.got_data failsC3 [packetC3]).writes
        = (([0, 1].takeWhile fun c => !failsC3 c).map fun c => (c, Format.RAW)) ∧
    (routerC3.got_data failsC3 [packetC3]).failed = [0, 1].find? failsC3 :=
  C3_write_failure_aborts_dispatch routerC3 packetC3 .CLIENT .RAW failsC3 rfl

/-!
## C7 / C9 — statistics accounting and registration idempotence
-/

lemma takeWhile_noFail (cs : List Conn) :
    (cs.takeWhile fun c => !noFail c) = cs := by
  induction cs <;> simp_all [List.takeWhile_cons, noFail]

lemma find?_noFail (cs : List Conn) : cs.find? noFail = none := by
  induction cs <;> simp_all [List.find?_cons, noFail]

lemma serveClients_clients (fails : Conn → Bool) (e : EndpointType) (sz : Nat)
    (f : Format) :
    ∀ (cs : List Conn) (r : Router),
      (serveClients fails e sz f cs r).1.clients = r.clients ∧
      (serveClients fails e sz f cs r).1.routes = r.routes := by
  intro cs
  induction cs with
  | nil => intro r; exact ⟨rfl, rfl⟩
  | cons c cs ih =>
      intro r
      by_cases hc : fails c = true
      · constructor <;>
          simp [serveClients, hc, incStat_clients, incStat_routes]
      · rw [Bool.not_eq_true] at hc
        have h := ih ((r.incStat e .PACKET_OUT 1).incStat e .BYTES_OUT sz)
        rcases hsc : serveClients fails e sz f cs
            ((r.incStat e .PACKET_OUT 1).incStat e .BYTES_OUT sz) with ⟨r', ws, err⟩
        rw [hsc] at h
        constructor <;>
          simp_all [serveClients, hc, incStat_clients, incStat_routes]

lemma serveClients_stats_out (e : EndpointType) (sz : Nat) (f : Format) :
    ∀ (cs : List Conn) (r : Router),
      (serveClients noFail e sz f cs r).1.statistics (e, .BYTES_OUT)
          = r.statistics (e, .BYTES_OUT) + sz * cs.length ∧
      (serveClients noFail e sz f cs r).1.statistics (e, .PACKET_OUT)
          = r.statistics (e, .PACKET_OUT) + cs.length := by
  intro cs
  induction cs with
  | nil => intro r; constructor <;> simp [serveClients]
  | cons c cs ih =>
      intro r
      have h := ih ((r.incStat e .PACKET_OUT 1).incStat e .BYTES_OUT sz)
      rcases hsc : serveClients noFail e sz f cs
          ((r.incStat e .PACKET_OUT 1).incStat e .BYTES_OUT sz) with ⟨r', ws, err⟩
      rw [hsc] at h
      have hb : ((r.incStat e .PACKET_OUT 1).incStat e .BYTES_OUT sz).statistics
          (e, .BYTES_OUT) = r.statistics (e, .BYTES_OUT) + sz := by
        rw [incStat_stat_self, incStat_stat_other _ _ _ _ _ _ (by simp)]
      have hp : ((r.incStat e .PACKET_OUT 1).incStat e .BYTES_OUT sz).statistics
          (e, .PACKET_OUT) = r.statistics (e, .PACKET_OUT) + 1 := by
        rw [incStat_stat_other _ _ _ _ _ _ (by simp), incStat_stat_self]
      constructor <;>
      · simp only [serveClients, noFail, Bool.false_eq_true, if_false, hsc]
        simp_all [Nat.mul_succ]
        omega

/-- The route-entry loop on a single route entry equals the client
loop for that entry, run on the router with the IN counters bumped. -/
lemma serveRoutes_singleton_eq (fails : Conn → Bool) (sz : Nat)
    (E : EndpointType) (F : Format) (r : Router) :
    serveRoutes fails sz [(E, F)] r
      = serveClients fails E sz F (r.clients E)
          ((r.incStat E .PACKET_IN 1).incStat E .BYTES_IN sz) := by
  rcases hsc : serveClients fails E sz F (r.clients E)
      ((r.incStat E .PACKET_IN 1).incStat E .BYTES_IN sz) with ⟨r1, ws, err⟩
  simp only [serveRoutes, incStat_clients]
  rw [hsc]
  cases err <;> simp [serveRoutes]

/-- The route-entry loop on a single entry, with no write failures:
no exception, the registry untouched, and the endpoint type's
PACKET_OUT / BYTES_OUT counters advanced by the client count and by
`size × client count` respectively. -/
lemma serveRoutes_singleton_noFail (sz : Nat) (E : EndpointType) (F : Format)
    (r : Router) :
    (serveRoutes noFail sz [(E, F)] r).2.2 = none ∧
    (serveRoutes noFail sz [(E, F)] r).1.clients = r.clients ∧
    (serveRoutes noFail sz [(E, F)] r).1.routes = r.routes ∧
    (serveRoutes noFail sz [(E, F)] r).1.statistics (E, .BYTES_OUT)
        = r.statistics (E, .BYTES_OUT) + sz * (r.clients E).length ∧
    (serveRoutes noFail sz [(E, F)] r).1.statistics (E, .PACKET_OUT)
        = r.statistics (E, .PACKET_OUT) + (r.clients E).length := by
  obtain ⟨hcl, hro⟩ := serveClients_clients noFail E sz F (r.clients E)
      ((r.incStat E .PACKET_IN 1).incStat E .BYTES_IN sz)
  obtain ⟨hbo, hpo⟩ := serveClients_stats_out E sz F (r.clients E)
      ((r.incStat E .PACKET_IN 1).incStat E .BYTES_IN sz)
  obtain ⟨-, hf⟩ := serveClients_spec noFail E sz F (r.clients E)
      ((r.incStat E .PACKET_IN 1).incStat E .BYTES_IN sz)
  have hbi : ((r.incStat E .PACKET_IN 1).incStat E .BYTES_IN sz).statistics
      (E, .BYTES_OUT) = r.statistics (E, .BYTES_OUT) := by
    rw [incStat_stat_other _ _ _ _ _ _ (by simp),
      incStat_stat_other _ _ _ _ _ _ (by simp)]
  have hpi : ((r.incStat E .PACKET_IN 1).incStat E .BYTES_IN sz).statistics
      (E, .PACKET_OUT) = r.statistics (E, .PACKET_OUT) := by
    rw [incStat_stat_other _ _ _ _ _ _ (by simp),
      incStat_stat_other _ _ _ _ _ _ (by simp)]
  rw [serveRoutes_singleton_eq]
  refine ⟨by rw [hf, find?_noFail], by rw [hcl]; rfl, by rw [hro]; rfl,
    by rw [hbo, hbi], by rw [hpo, hpi]⟩

/-- `got_data` on a packet routed by a single route entry followed by
more packets: no write fails, so the dispatch of the first packet
completes and the rest are dispatched from the updated router. -/
lemma got_data_cons_noFail (r : Router) (p : Packet) (ps : List Packet)
    (E : EndpointType) (F : Format) (hroute : r.routes p.ptype = [(E, F)]) :
    r.got_data noFail (p :: ps)
      = ⟨((serveRoutes noFail p.packet_size [(E, F)] r).1.got_data noFail ps).router,
         (serveRoutes noFail p.packet_size [(E, F)] r).2.1
           ++ ((serveRoutes noFail p.packet_size [(E, F)] r).1.got_data noFail
                ps).writes,
         ((serveRoutes noFail p.packet_size [(E, F)] r).1.got_data noFail
            ps).failed⟩ := by
  obtain ⟨herr, -, -, -, -⟩ := serveRoutes_singleton_noFail p.packet_size E F r
  rcases hsr : serveRoutes noFail p.packet_size [(E, F)] r with ⟨r1, ws, err⟩
  rw [hsr] at herr
  replace herr : err = none := herr
  subst herr
  simp only [Router.got_data, hroute]
  rw [hsr]

/-- `got_data` over `N` copies of a packet routed by a single route
entry: no failure, registry and route table untouched, and the OUT
counters of the routed endpoint type advanced by `N·S·K` bytes and
`N·K` packets. -/
lemma got_data_replicate (p : Packet) (E : EndpointType) (F : Format) :
    ∀ (N : Nat) (r : Router), r.routes p.ptype = [(E, F)] →
      (r.got_data noFail (List.replicate N p)).router.statistics (E, .BYTES_OUT)
          = r.statistics (E, .BYTES_OUT) + N * p.packet_size * (r.clients E).length ∧
      (r.got_data noFail (List.replicate N p)).router.statistics (E, .PACKET_OUT)
          = r.statistics (E, .PACKET_OUT) + N * (r.clients E).length ∧
      (r.got_data noFail (List.replicate N p)).router.clients = r.clients ∧
      (r.got_data noFail (List.replicate N p)).router.routes = r.routes := by
  intro N
  induction N with
  | zero => intro r _; simp [Router.got_data, List.replicate]
  | succ n ih =>
      intro r hroute
      obtain ⟨-, hcl, hro, hbo, hpo⟩ :=
        serveRoutes_singleton_noFail p.packet_size E F r
      have hroute1 :
          (serveRoutes noFail p.packet_size [(E, F)] r).1.routes p.ptype
            = [(E, F)] := by rw [hro, hroute]
      obtain ⟨ihbo, ihpo, ihcl, ihro⟩ :=
        ih (serveRoutes noFail p.packet_size [(E, F)] r).1 hroute1
      rw [List.replicate_succ, got_data_cons_noFail r p _ E F hroute]
      refine ⟨?_, ?_, ?_, ?_⟩
      · show ((serveRoutes noFail p.packet_size [(E, F)] r).1.got_data noFail
            (List.replicate n p)).router.statistics (E, .BYTES_OUT) = _
        rw [ihbo, hbo, hcl]
        ring
      · show ((serveRoutes noFail p.packet_size [(E, F)] r).1.got_data noFail
            (List.replicate n p)).router.statistics (E, .PACKET_OUT) = _
        rw [ihpo, hpo, hcl]
        ring
      · show ((serveRoutes noFail p.packet_size [(E, F)] r).1.got_data noFail
            (List.replicate n p)).router.clients = _
        rw [ihcl, hcl]
      · show ((serveRoutes noFail p.packet_size [(E, F)] r).1.got_data noFail
            (List.replicate n p)).router.routes = _
        rw [ihro, hro]

/-- C7: after `got_data` routes `N` packets, each of serialized size
`S`, under a single route entry to an endpoint type with `K` live
connections and freshly reset OUT counters, that endpoint type's
BYTES_OUT counter equals `N·S·K` and its PACKET_OUT counter equals
`N·K` (no intervening `_log_stats` reset occurs inside `got_data`). -/
theorem C7_statistics_accounting (r : Router) (E : EndpointType) (F : Format)
    (p : Packet) (N S K : Nat)
    (hroute : r.routes p.ptype = [(E, F)])
    (hK : (r.clients E).length = K)
    (hS : p.packet_size = S)
    (hb : r.statistics (E, .BYTES_OUT) = 0)
    (hp : r.statistics (E, .PACKET_OUT) = 0) :
    (r.got_data noFail (List.replicate N p)).router.statistics (E, .BYTES_OUT)
        = N * S * K ∧
    (r.got_data noFail (List.replicate N p)).router.statistics (E, .PACKET_OUT)
        = N * K := by
  obtain ⟨hbo, hpo, -, -⟩ := got_data_replicate p E F N r hroute
  rw [hbo, hpo, hb, hp, hK, hS, Nat.zero_add, Nat.zero_add]
  exact ⟨rfl, rfl⟩

/-- C7 witness: three one-byte packets (serialized size 17) to the two
CLIENT connections of the counterexample router give BYTES_OUT
= 3·17·2 and PACKET_OUT = 3·2. -/
theorem C7_statistics_accounting_witness :
    (routerC3.got_data noFail (List.replicate 3 packetC3)).router.statistics
        (.CLIENT, .BYTES_OUT) = 3 * 17 * 2 ∧
    (routerC3.got_data noFail (List.replicate 3 packetC3)).router.statistics
        (.CLIENT, .PACKET_OUT) = 3 * 2 :=
  C7_statistics_accounting routerC3 .CLIENT .RAW packetC3 3 17 2
    rfl rfl rfl rfl rfl

lemma register_clients (r : Router) (e : EndpointType) (c : Conn) :
    (r.register e c).clients
      = Function.update r.clients e (setAdd (r.clients e) c) := rfl

lemma register_routes (r : Router) (e : EndpointType) (c : Conn) :
    (r.register e c).routes = r.routes := rfl

/-- `got_data` of one packet under a single route entry with no write
failures writes to exactly the endpoint type's client list, in
order. -/
lemma got_data_noFail_single (r : Router) (p : Packet) (E : EndpointType)
    (F : Format) (hroute : r.routes p.ptype = [(E, F)]) :
    (r.got_data noFail [p]).writes = (r.clients E).map (fun c => (c, F)) := by
  have hw : (serveRoutes noFail p.packet_size [(E, F)] r).2.1
      = (r.clients E).map (fun c => (c, F)) := by
    rw [serveRoutes_singleton_eq,
      (serveClients_spec noFail E p.packet_size F (r.clients E) _).1,
      takeWhile_noFail]
  rw [got_data_cons_noFail r p [] E F hroute]
  show (serveRoutes noFail p.packet_size [(E, F)] r).2.1
      ++ ((serveRoutes noFail p.packet_size [(E, F)] r).1.got_data noFail
            []).writes
      = (r.clients E).map (fun c => (c, F))
  rw [hw]
  simp [Router.got_data]

/-- C9: registering the same connection twice with the same endpoint
type leaves the client registry exactly as one registration does, and
routing one packet under a single route entry then writes to that
connection exactly once, not twice. -/
theorem C9_register_idempotent (r : Router) (E : EndpointType) (c : Conn)
    (p : Packet) (F : Format)
    (hc : c ∉ r.clients E)
    (hroute : r.routes p.ptype = [(E, F)]) :
    ((r.register E c).register E c).clients = (r.register E c).clients ∧
    ((((r.register E c).register E c).got_data noFail [p]).writes.countP
        fun w => w.1 == c) = 1 := by
  have hcl2 : ((r.register E c).register E c).clients
      = Function.update r.clients E (setAdd (r.clients E) c) := by
    rw [register_clients, register_clients, Function.update_same,
      setAdd_idem, Function.update_idem]
  constructor
  · rw [hcl2, register_clients]
  · have hroute2 : ((r.register E c).register E c).routes p.ptype = [(E, F)] := by
      rw [register_routes, register_routes, hroute]
    rw [got_data_noFail_single _ p E F hroute2, hcl2, Function.update_same,
      setAdd_of_not_mem hc, List.countP_map]
    show ((r.clients E ++ [c]).countP fun x => x == c) = 1
    rw [List.countP_append]
    have h0 : ((r.clients E).countP fun x => x == c) = 0 :=
      List.countP_eq_zero.mpr fun a ha hpa =>
        hc (by rwa [show a = c by simpa using hpa] at ha)
    rw [h0]
    simp

/-- C9 witness: the theorem at the counterexample router (CLIENT
clients `[0, 1]`), registering connection 5 twice. -/
theorem C9_register_idempotent_witness :
    ((routerC3.register .CLIENT 5).register .CLIENT 5).clients
        = (routerC3.register .CLIENT 5).clients ∧
    ((((routerC3.register .CLIENT 5).register .CLIENT 5).got_data noFail
        [packetC3]).writes.countP fun w => w.1 == 5) = 1 :=
  C9_register_idempotent routerC3 .CLIENT 5 packetC3 .RAW (by decide) rfl

/-!
## C8 — periodic statistics publication

`_log_stats` publishes only when a previous interval end-time has been
recorded *and* the CLIENT endpoint accumulated statistics during the
interval; on the first interval, and on idle intervals, it publishes
nothing.
-/

/-- C8 counterexample: on an interval with no CLIENT-endpoint activity
(all counters zero), and likewise on the very first interval (no
recorded start time), `_log_stats` publishes no statistics blob —
refuting "on every fixed statistics interval, the router pushes a JSON
statistics blob". -/
theorem C8_counterexample :
    (Router.log_stats
        ⟨fun _ => [], fun _ => [], fun _ => 0, some 0⟩ "rd" 10).2 = none ∧
    (Router.log_stats
        ⟨fun _ => [], fun _ => [], fun _ => 0, none⟩ "rd" 10).2 = none :=
  ⟨rfl, rfl⟩

/-- C8 (amended): on every statistics interval for which a previous
interval end-time is recorded and the CLIENT endpoint accumulated any
statistics, `_log_stats` publishes a blob carrying exactly bytes_in,
bytes_out, the per-endpoint-type connection counts, the elapsed
interval, the interval end time, the reference designator, and the
registration (ADD_CLIENT) count; and when no channel to the message
queue is open, `publish` drops the message and returns without
raising. -/
theorem C8_stats_publication (r : Router) (refdes : String) (now t : Nat)
    (hstart : r.stats_time = some t)
    (hbusy : (RouterStat.values.any
        fun st => r.statistics (.CLIENT, st) ≠ 0) = true) :
    (r.log_stats refdes now).2 = some
      { bytes_in := r.statistics (.CLIENT, .BYTES_IN)
        bytes_out := r.statistics (.CLIENT, .BYTES_OUT)
        num_clients := EndpointType.values.map fun k => (k, (r.clients k).length)
        elapsed := now - t
        end_time := now
        reference_designator := refdes
        adds := r.statistics (.CLIENT, .ADD_CLIENT) } ∧
    (∀ message : String, StatisticsPublisher.publish none message = .ok false) := by
  constructor
  · have hbusy' : ∃ x ∈ RouterStat.values,
        ¬r.statistics (EndpointType.CLIENT, x) = 0 := by simpa using hbusy
    simp [Router.log_stats, hstart, hbusy']
  · intro message
    rfl

/-- A router mid-interval with CLIENT traffic recorded, for the C8
witness: one CLIENT connection, 42 bytes in, previous interval end at
time 3. -/
def busyRouter : Router :=
  { routes := fun _ => []
    clients := fun e => if e = .CLIENT then [5] else []
    statistics := fun k => if k = (.CLIENT, .BYTES_IN) then 42 else 0
    stats_time := some 3 }

/-- C8 witness: the amended theorem evaluated on `busyRouter` at
time 10. -/
theorem C8_stats_publication_witness :
    (busyRouter.log_stats "rd" 10).2 = some
      { bytes_in := 42
        bytes_out := 0
        num_clients := [(.INSTRUMENT, 0), (.INSTRUMENT_DATA, 0), (.CLIENT, 1),
          (.COMMAND, 0), (.COMMAND_HANDLER, 0), (.LOGGER, 0), (.DATALOGGER, 0),
          (.RAW, 0), (.DIGI, 0)]
        elapsed := 7
        end_time := 10
        reference_designator := "rd"
        adds := 0 } ∧
    (∀ message : String, StatisticsPublisher.publish none message = .ok false) :=
  C8_stats_publication busyRouter "rd" 10 3 rfl (by decide)

/-!
## C1 — connectivity debounce state machine
-/

/-- In one well-formed step (a connect event only ever carries a socket
not already in the live set — Twisted calls `instrument_connected` once
per fresh connection object), a CONNECTED status packet is emitted only
when the live set size reaches the target from strictly below it. -/
lemma connected_only_on_crossing (s s' : AgentState) (ev : AgentEvent)
    (hwf : ∀ c, ev = .connect c → c ∉ s.connections)
    (hstep : s.step ev = .ok s')
    (hmem : connPacket ∈ s'.emitted.drop s.emitted.length) :
    s.connections.length < s.num_connections ∧
    s'.connections.length = s.num_connections := by
  cases ev with
  | connect c =>
      have hc : c ∉ s.connections := hwf c rfl
      simp only [AgentState.step, create_connected] at hstep
      rw [setAdd_of_not_mem hc] at hstep
      by_cases hlen : (s.connections ++ [c]).length = s.num_connections
      · rw [if_pos hlen] at hstep
        have hlen' : s.connections.length + 1 = s.num_connections := by
          simpa using hlen
        cases hid : s.disconnect_notification_id with
        | none =>
            rw [hid] at hstep
            simp only [Except.ok.injEq] at hstep
            subst hstep
            constructor
            · omega
            · simpa using hlen'
        | some dc =>
            cases dc with
            | pending =>
                rw [hid] at hstep
                simp only [Except.ok.injEq] at hstep
                subst hstep
                constructor
                · omega
                · simpa using hlen'
            | cancelled => rw [hid] at hstep; exact absurd hstep (by simp)
            | called => rw [hid] at hstep; exact absurd hstep (by simp)
      · rw [if_neg hlen] at hstep
        simp only [Except.ok.injEq] at hstep
        subst hstep
        rw [List.drop_length] at hmem
        exact absurd hmem (by simp)
  | disconnect c =>
      simp only [AgentState.step] at hstep
      by_cases hc : c ∈ s.connections
      · rw [if_pos hc] at hstep
        cases hid : s.disconnect_notification_id with
        | none =>
            rw [hid] at hstep
            simp only [Except.ok.injEq] at hstep
            subst hstep
            rw [List.drop_length] at hmem
            exact absurd hmem (by simp)
        | some dc =>
            rw [hid] at hstep
            simp only [Except.ok.injEq] at hstep
            subst hstep
            rw [List.drop_length] at hmem
            exact absurd hmem (by simp)
      · rw [if_neg hc] at hstep
        exact absurd hstep (by simp)
  | timerFire =>
      simp only [AgentState.step, create_disconnected] at hstep
      cases hid : s.disconnect_notification_id with
      | none => rw [hid] at hstep; exact absurd hstep (by simp)
      | some dc =>
          cases dc with
          | pending =>
              rw [hid] at hstep
              simp only [Except.ok.injEq] at hstep
              subst hstep
              rw [List.drop_left] at hmem
              have : connPacket ≠ discPacket := by decide
              simp_all
          | cancelled => rw [hid] at hstep; exact absurd hstep (by simp)
          | called => rw [hid] at hstep; exact absurd hstep (by simp)

/-- C1: the connectivity debounce machine with target connection
count 2, started with no live connections, no pending timer and no
emitted status packets:
the first `instrument_connected` produces no status packet;
the second produces exactly one CONNECTED packet;
`instrument_disconnected` for one socket starts the forgiveness timer;
`instrument_connected` again before the timer fires cancels the timer
and produces no DISCONNECTED packet;
letting the timer fire instead produces exactly one DISCONNECTED
packet;
and — for every well-formed step of the machine — a CONNECTED packet
is emitted only when the live set size reaches the target having
previously been below it. -/
theorem C1_connectivity_debounce :
    (AgentState.run ⟨[], 2, none, []⟩ [.connect 0]
        = .ok ⟨[0], 2, none, []⟩) ∧
    (AgentState.run ⟨[], 2, none, []⟩ [.connect 0, .connect 1]
        = .ok ⟨[0, 1], 2, none, [connPacket]⟩) ∧
    (AgentState.run ⟨[], 2, none, []⟩ [.connect 0, .connect 1, .disconnect 0]
        = .ok ⟨[1], 2, some .pending, [connPacket]⟩) ∧
    (AgentState.run ⟨[], 2, none, []⟩
        [.connect 0, .connect 1, .disconnect 0, .connect 0]
        = .ok ⟨[1, 0], 2, some .cancelled, [connPacket, connPacket]⟩) ∧
    (AgentState.run ⟨[], 2, none, []⟩
        [.connect 0, .connect 1, .disconnect 0, .timerFire]
        = .ok ⟨[1], 2, some .called, [connPacket, discPacket]⟩) ∧
    (∀ (s s' : AgentState) (ev : AgentEvent),
        (∀ c, ev = .connect c → c ∉ s.connections) →
        s.step ev = .ok s' →
        connPacket ∈ s'.emitted.drop s.emitted.length →
        s.connections.length < s.num_connections ∧
        s'.connections.length = s.num_connections) :=
  ⟨rfl, rfl, rfl, rfl, rfl, connected_only_on_crossing⟩

/-- C1 witness: the only-on-crossing clause of the theorem at a
concrete step — target 1, connecting socket 7 to an idle agent. -/
theorem C1_connectivity_debounce_witness :
    List.length ([] : List Conn) < 1 ∧ List.length [(7 : Conn)] = 1 :=
  C1_connectivity_debounce.2.2.2.2.2
    ⟨[], 1, none, []⟩ ⟨[7], 1, none, [connPacket]⟩ (.connect 7)
    (fun c h => by cases h; simp) rfl (by simp)

end OOIPortAgent
